import Mathlib

/-!
Shallow embedding of `src/injection/provide.py`.

The Python file defines:
* `ClassGetItemMeta.__getitem__(cls, item) = cls(item)` (lines 8-10),
* `Provide.__init__(self, provider): self.provider = provider` (lines 14-15),
* `Provide.__call__(self): return self` (lines 17-18).

Python object identity and side effects are made explicit: `PyState` carries
the allocator counter used to give every newly constructed object a fresh
identity, and a counter of how many times any provider's "produce" capability
has been invoked.  A method that could raise is embedded in `Except PyErr`;
the bodies above contain no `raise` and no operation that can raise, so each
embedded method returns `Except.ok` by construction of the translation.
-/

/-- PyErr models a Python exception value (opaque: only its presence matters). -/
inductive PyErr where
  | exn : String → PyErr
deriving DecidableEq, Repr

/-- PyState models the ambient interpreter state that this component could
observe or change: `nextId` is the allocator counter handing out fresh object
identities, and `produceCalls` counts every invocation of any provider's
"produce" capability performed anywhere in the program. -/
structure PyState where
  nextId : Nat
  produceCalls : Nat
deriving DecidableEq, Repr

/-- Provide models an instance of the Python class `Provide`: an object
identity (the Python reference, for `is` comparisons) together with its single
attribute `provider`, set by `Provide.__init__`.  The provider type `α` is
opaque to this component. -/
structure Provide (α : Type) where
  id : Nat
  provider : α
deriving DecidableEq, Repr

/-- BaseProvider is Modelled from the spec: the class
`injection.providers.base.BaseProvider` imported by `provide.py` is not part
of this fragment's sources; the spec describes it as an opaque capability
exposing a single "produce a T" operation.  `ref` is the provider object's
identity and `produce` its capability, which (when actually invoked by the
external framework) may read and update the interpreter state. -/
structure BaseProvider (β : Type) where
  ref : Nat
  produce : PyState → β × PyState

/-- Provide.init embeds object creation followed by `Provide.__init__`
(lines 14-15 of provide.py): a fresh identity is taken from the allocator and
the single attribute `provider` is set to the argument.  The body is one
attribute assignment: it never raises, never reads the argument's contents and
never invokes the provider, so it returns `Except.ok` and leaves
`produceCalls` untouched. -/
def Provide.init {α : Type} (p : α) (s : PyState) :
    Except PyErr (Provide α) × PyState :=
  (Except.ok { id := s.nextId, provider := p },
   { s with nextId := s.nextId + 1 })

/-- classGetItem embeds `ClassGetItemMeta.__getitem__` (lines 8-10 of
provide.py): `return cls(item)`, i.e. it constructs and returns a new
`Provide` wrapping `item`. -/
def classGetItem {α : Type} (p : α) (s : PyState) :
    Except PyErr (Provide α) × PyState :=
  Provide.init p s

/-- Provide.call embeds `Provide.__call__` (lines 17-18 of provide.py):
`return self`.  The receiver itself is returned and the interpreter state is
left exactly as it was. -/
def Provide.call {α : Type} (m : Provide α) (s : PyState) :
    Except PyErr (Provide α) × PyState :=
  (Except.ok m, s)

/-- invokeTimes runs `Provide.__call__` `n` times in sequence, threading the
interpreter state and propagating an exception should one ever arise. -/
def invokeTimes {α : Type} (m : Provide α) (s : PyState) :
    Nat → Except PyErr (Provide α) × PyState
  | 0 => (Except.ok m, s)
  | Nat.succ n =>
    match invokeTimes m s n with
    | (Except.ok m2, s2) => Provide.call m2 s2
    | (Except.error e, s2) => (Except.error e, s2)

/-- Any number of invocations returns the original marker and the original
interpreter state (shared helper lemma). -/
theorem invokeTimes_eq {α : Type} (m : Provide α) (s : PyState) (n : Nat) :
    invokeTimes m s n = (Except.ok m, s) := by
  induction n with
  | zero => rfl
  | succ n ih => simp [invokeTimes, ih, Provide.call]

/-- C1: for every Marker m (constructed from any provider), invoking m as a
zero-argument call returns m itself — the identical instance (same object
identity), not the provider's produced value. -/
theorem C1_call_returns_self {α : Type} (m : Provide α) (s : PyState) :
    (Provide.call m s).1 = Except.ok m := rfl

/-- C2: for every provider value p, the indexed-construction expression
Provide[p] yields a Provide (Marker) instance that wraps p: subscripting the
class constructs and returns a new instance holding p. -/
theorem C2_getitem_constructs_wrapper {α : Type} (p : α) (s : PyState) :
    ∃ m : Provide α, (classGetItem p s).1 = Except.ok m ∧ m.provider = p :=
  ⟨{ id := s.nextId, provider := p }, rfl, rfl⟩

/-- C3: for every Marker, the wrapped Provider reference never changes after
construction; the Marker carries no state besides its identity and the
wrapped provider, and the only operation available on an existing Marker
(invocation, any number of times) returns the Marker with its provider field
identical to what construction stored, leaving all interpreter state
unchanged. -/
theorem C3_provider_immutable {α : Type} (p : α) (s : PyState) (n : Nat) :
    ∃ m : Provide α,
      (Provide.init p s).1 = Except.ok m ∧
      m.provider = p ∧
      invokeTimes m (Provide.init p s).2 n =
        (Except.ok m, (Provide.init p s).2) ∧
      m = { id := m.id, provider := p } :=
  ⟨{ id := s.nextId, provider := p }, rfl, rfl,
    invokeTimes_eq _ _ n, rfl⟩

/-- C4: for every provider p, constructing a Marker from p and then reading
back its wrapped provider field returns exactly p. -/
theorem C4_wrap_preserves_identity {α : Type} (p : α) (s : PyState) :
    ∃ m : Provide α, (Provide.init p s).1 = Except.ok m ∧ m.provider = p :=
  ⟨{ id := s.nextId, provider := p }, rfl, rfl⟩

/-- C5: Marker construction never raises, for every input value whatsoever:
both direct construction and indexed construction always return ok, with no
validation of the provider at this layer. -/
theorem C5_construction_total {α : Type} (p : α) (s : PyState) :
    (∃ m : Provide α, (Provide.init p s).1 = Except.ok m) ∧
    (∃ m : Provide α, (classGetItem p s).1 = Except.ok m) :=
  ⟨⟨{ id := s.nextId, provider := p }, rfl⟩,
   ⟨{ id := s.nextId, provider := p }, rfl⟩⟩

/-- C6: Marker invocation is idempotent: for every Marker m, invoking m any
positive number of times yields exactly the same result (same returned Marker
and same interpreter state) as invoking it once. -/
theorem C6_call_idempotent {α : Type} (m : Provide α) (s : PyState) (n : Nat)
    (h : 1 ≤ n) :
    invokeTimes m s n = invokeTimes m s 1 := by
  rw [invokeTimes_eq, invokeTimes_eq]

/-- C6 witness: invoking a concrete Marker three times equals invoking it
once. -/
theorem C6_call_idempotent_witness :
    1 ≤ 3 ∧
    invokeTimes (Provide.mk 0 (42 : Nat)) (PyState.mk 1 0) 3 =
      invokeTimes (Provide.mk 0 (42 : Nat)) (PyState.mk 1 0) 1 :=
  ⟨by decide, C6_call_idempotent (Provide.mk 0 (42 : Nat)) (PyState.mk 1 0) 3
    (by decide)⟩

/-- C7: Marker invocation has no side effects and raises no exceptions: the
call returns ok, the returned Marker is the receiver with its provider field
unchanged, and the entire interpreter state (allocator counter and
produce-call counter alike) is exactly as before. -/
theorem C7_call_no_effects {α : Type} (m : Provide α) (s : PyState) :
    (Provide.call m s).1 = Except.ok m ∧
    (Provide.call m s).2 = s ∧
    (Provide.call m s).2.nextId = s.nextId ∧
    (Provide.call m s).2.produceCalls = s.produceCalls ∧
    (Provide.call m s).1 = Except.ok { id := m.id, provider := m.provider } :=
  ⟨rfl, rfl, rfl, rfl, rfl⟩

/-- C8: for every two distinct Provider values p1 and p2, the Marker built
from p1 and the Marker then built from p2 are distinct objects (different
object identities) and wrap distinct references: the first wraps p1, the
second wraps p2, and p1 is not p2. -/
theorem C8_distinct_providers_distinct_markers {α : Type} (p1 p2 : α)
    (s : PyState) (h : p1 ≠ p2) :
    ∃ m1 m2 : Provide α,
      Provide.init p1 s = (Except.ok m1, (Provide.init p1 s).2) ∧
      Provide.init p2 (Provide.init p1 s).2 =
        (Except.ok m2, (Provide.init p2 (Provide.init p1 s).2).2) ∧
      m1.provider = p1 ∧ m2.provider = p2 ∧
      m1 ≠ m2 ∧ m1.id ≠ m2.id ∧ m1.provider ≠ m2.provider := by
  refine ⟨{ id := s.nextId, provider := p1 },
    { id := s.nextId + 1, provider := p2 }, rfl, rfl, rfl, rfl, ?_, ?_, h⟩
  · intro hc
    exact absurd (congrArg Provide.id hc) (Nat.ne_of_lt (Nat.lt_succ_self _))
  · exact Nat.ne_of_lt (Nat.lt_succ_self _)

/-- C8 witness: two concrete distinct provider references 5 and 7 yield, from
the initial interpreter state, distinct Markers wrapping distinct
references. -/
theorem C8_distinct_providers_distinct_markers_witness :
    (5 : Nat) ≠ 7 ∧
    ∃ m1 m2 : Provide Nat,
      Provide.init 5 (PyState.mk 0 0) =
        (Except.ok m1, (Provide.init 5 (PyState.mk 0 0)).2) ∧
      Provide.init 7 (Provide.init 5 (PyState.mk 0 0)).2 =
        (Except.ok m2, (Provide.init 7 (Provide.init 5 (PyState.mk 0 0)).2).2) ∧
      m1.provider = 5 ∧ m2.provider = 7 ∧
      m1 ≠ m2 ∧ m1.id ≠ m2.id ∧ m1.provider ≠ m2.provider :=
  ⟨by decide,
   C8_distinct_providers_distinct_markers 5 7 (PyState.mk 0 0) (by decide)⟩

/-- C9: neither construction nor invocation ever invokes the wrapped
provider's produce capability, and the component's observable behaviour is
independent of which provider is supplied: for any two providers (here, two
BaseProvider values with arbitrary, possibly different, produce behaviours),
construction from the same state performs the same state transition and
yields markers with the same identity, differing only in the stored
reference; invocation likewise; and the produce-call counter is never
advanced by either operation. -/
theorem C9_provider_never_invoked {β : Type} (q1 q2 : BaseProvider β)
    (s : PyState) (m : Provide (BaseProvider β)) :
    (Provide.init q1 s).2 = (Provide.init q2 s).2 ∧
    (∃ m1 m2 : Provide (BaseProvider β),
      (Provide.init q1 s).1 = Except.ok m1 ∧
      (Provide.init q2 s).1 = Except.ok m2 ∧
      m1.id = m2.id ∧ m1.provider = q1 ∧ m2.provider = q2) ∧
    (Provide.init q1 s).2.produceCalls = s.produceCalls ∧
    (Provide.call m s).2.produceCalls = s.produceCalls ∧
    (Provide.call m s).2 = s :=
  ⟨rfl,
   ⟨{ id := s.nextId, provider := q1 }, { id := s.nextId, provider := q2 },
    rfl, rfl, rfl, rfl, rfl⟩,
   rfl, rfl, rfl⟩

/-- C10: every construction yields a fresh Marker instance: two successive
constructions from the same provider p produce two Markers with different
object identities — Markers are never cached or interned. -/
theorem C10_constructions_fresh {α : Type} (p : α) (s : PyState) :
    ∃ m1 m2 : Provide α,
      (Provide.init p s).1 = Except.ok m1 ∧
      (Provide.init p (Provide.init p s).2).1 = Except.ok m2 ∧
      m1.provider = p ∧ m2.provider = p ∧
      m1 ≠ m2 ∧ m1.id ≠ m2.id := by
  refine ⟨{ id := s.nextId, provider := p },
    { id := s.nextId + 1, provider := p }, rfl, rfl, rfl, rfl, ?_, ?_⟩
  · intro hc
    exact absurd (congrArg Provide.id hc) (Nat.ne_of_lt (Nat.lt_succ_self _))
  · exact Nat.ne_of_lt (Nat.lt_succ_self _)
